import Mathlib

/-!
Verification of the twitter-rt-bot script (src/main.py) against its
specification.

The script is embedded shallowly:

* Python strings are `String`; the Python methods `str.lower`, `str.upper`,
  `str.strip` and `str.join` are modelled character-wise over `String.data`
  (`pyLower`, `pyUpper`, `pyStrip`, `pyJoin`), so that they compute in the
  kernel.
* The append-only log file is modelled as a `List String` of written chunks,
  threaded through every function that writes to it; `get_current_time` is
  modelled by passing the rendered timestamp string as a parameter `time`.
  Opening the log file is modelled as succeeding (the file-not-found branch
  of `log` is unreachable in that model).
* A raised Python exception is modelled as `Except.error`/`Option.some`
  carrying the message of the raised error.
* The module-level statements of the script (configuration loading,
  credential extraction, client construction, search-parameter parsing and
  the scraping loop) are embedded as `extractCredentials`,
  `buildClient`, `parseSearchConfig`, `scrape_tweets` and sequenced in
  `runMain`, which also records the externally visible calls
  (client construction, search call) as an `Event` trace.
* The third-party client (tweepy) is opaque: its paginated iterator is
  modelled as a list of `Pull`s, each either a yielded raw tweet or a raised
  exception.
-/

/-- Model of Python `str.lower` (`log_type.lower()`, `configuration["language"].lower()`):
maps every character to lower case. -/
def pyLower (s : String) : String := ⟨s.data.map Char.toLower⟩

/-- Model of Python `str.upper` (`msg.upper()` in the title branch of `log`):
maps every character to upper case. -/
def pyUpper (s : String) : String := ⟨s.data.map Char.toUpper⟩

/-- Model of Python `str.strip` (`log_type.strip()`, `result_type.strip()`):
removes leading and trailing whitespace. -/
def pyStrip (s : String) : String :=
  ⟨((s.data.dropWhile Char.isWhitespace).reverse.dropWhile Char.isWhitespace).reverse⟩

/-- Model of Python `sep.join(parts)` (used for the language list in
`to_iso_code`). -/
def pyJoin (sep : String) : List String → String
  | [] => ""
  | [x] => x
  | x :: xs => x ++ sep ++ pyJoin sep xs

/-- The `types_hash` dictionary of `log` in src/main.py. -/
def types_hash : List (String × String) := [("info", "I"), ("error", "E")]

/-- The final rendering step of `log`: `message = f"\n{time} | {message}"`. -/
def renderLogLine (time message : String) : String :=
  "\n" ++ time ++ " | " ++ message

/-- The `log(msg, log_type="info")` function of src/main.py.  The Python
function normalises `log_type` by `.lower().strip()`, renders the message
according to the (normalised) type, and appends one chunk to the log file.
For an unknown type the `KeyError` of the `types_hash` lookup is caught,
`log` is called recursively with an internal error message, and a fresh
`KeyError` with that message is raised.  The returned pair is
(log file contents after the call, message of the raised error if any). -/
def log (time msg log_type : String) (logs : List String) :
    List String × Option String :=
  if pyStrip (pyLower log_type) = "title" then
    (logs ++ [renderLogLine time (pyUpper msg)], none)
  else
    match h : types_hash.lookup (pyStrip (pyLower log_type)) with
    | some t => (logs ++ [renderLogLine time ("[" ++ t ++ "]: " ++ msg)], none)
    | none =>
      let err := "Internal key error when trying to log an error inside the script"
      ((log time err "error" logs).1, some err)
termination_by (if (types_hash.lookup (pyStrip (pyLower log_type))).isSome then 0 else 1)
decreasing_by
  simp_wf
  rw [h]
  decide

lemma log_title_case (time msg k : String) (logs : List String)
    (hk : pyStrip (pyLower k) = "title") :
    log time msg k logs = (logs ++ [renderLogLine time (pyUpper msg)], none) := by
  rw [log.eq_def, hk]
  simp

lemma log_known_case (time msg k t : String) (logs : List String)
    (hk : types_hash.lookup (pyStrip (pyLower k)) = some t)
    (hnt : pyStrip (pyLower k) ≠ "title") :
    log time msg k logs =
      (logs ++ [renderLogLine time ("[" ++ t ++ "]: " ++ msg)], none) := by
  rw [log.eq_def, if_neg hnt]
  split
  · rename_i t' h
    rw [hk] at h
    cases h
    rfl
  · rename_i h
    rw [hk] at h
    cases h

lemma log_info_eq (time msg : String) (logs : List String) :
    log time msg "info" logs =
      (logs ++ [renderLogLine time ("[" ++ "I" ++ "]: " ++ msg)], none) :=
  log_known_case time msg "info" "I" logs (by decide) (by decide)

lemma log_error_eq (time msg : String) (logs : List String) :
    log time msg "error" logs =
      (logs ++ [renderLogLine time ("[" ++ "E" ++ "]: " ++ msg)], none) :=
  log_known_case time msg "error" "E" logs (by decide) (by decide)

lemma log_unknown_case (time msg k : String) (logs : List String)
    (hk : types_hash.lookup (pyStrip (pyLower k)) = none)
    (hnt : pyStrip (pyLower k) ≠ "title") :
    log time msg k logs =
      (logs ++ [renderLogLine time ("[" ++ "E" ++ "]: " ++
          "Internal key error when trying to log an error inside the script")],
       some "Internal key error when trying to log an error inside the script") := by
  rw [log.eq_def, if_neg hnt]
  split
  · rename_i t' h
    rw [hk] at h
    cases h
  · rename_i h
    show ((log time "Internal key error when trying to log an error inside the script"
        "error" logs).1,
      some "Internal key error when trying to log an error inside the script") = _
    rw [log_error_eq]

lemma render_line_eq (time msg pre mid : String) (h : " | " ++ pre = mid) :
    renderLogLine time (pre ++ msg) = "\n" ++ time ++ mid ++ msg := by
  subst h
  unfold renderLogLine
  simp [String.append_assoc]

lemma types_hash_lookup_none (s : String) (h1 : s ≠ "info") (h2 : s ≠ "error") :
    types_hash.lookup s = none := by
  have e1 : (s == "info") = false := by simp [h1]
  have e2 : (s == "error") = false := by simp [h2]
  simp [types_hash, List.lookup, e1, e2]

lemma kind_outside_lookup_none (k : String)
    (h : pyStrip (pyLower k) ∉ (["info", "error", "title"] : List String)) :
    types_hash.lookup (pyStrip (pyLower k)) = none := by
  simp only [List.mem_cons, List.not_mem_nil, or_false, not_or] at h
  exact types_hash_lookup_none _ h.1 h.2.1

lemma kind_outside_not_title (k : String)
    (h : pyStrip (pyLower k) ∉ (["info", "error", "title"] : List String)) :
    pyStrip (pyLower k) ≠ "title" := by
  simp only [List.mem_cons, List.not_mem_nil, or_false, not_or] at h
  exact h.2.2

/-- The `languages` dictionary of `to_iso_code` in src/main.py: supported
language names and their two-letter codes, in source order. -/
def languages : List (String × String) :=
  [("arab", "ar"),
   ("greek", "el"),
   ("german", "de"),
   ("english", "en"),
   ("spanish", "es"),
   ("french", "fr"),
   ("italian", "it"),
   ("korean", "ko"),
   ("russian", "ru"),
   ("chines", "zn")]

/-- The `LANGS` string of `to_iso_code`: `'\n   -'.join(languages.keys())`. -/
def LANGS : String := pyJoin "\n   -" (languages.map Prod.fst)

/-- The message of the `KeyError` raised by `to_iso_code` for an unsupported
language, built exactly as the successive `err += ...` statements build it. -/
def languageErrMsg (language : String) : String :=
  "Sorry, but we can\x27t get the language \x27" ++ language ++ "\x27..."
    ++ "\nWe currently have support for the following languages:"
    ++ LANGS
    ++ "If you think that your language should be supported, you can create a pr on GitHub: "
    ++ "\n github.com/pblcc/twitter-rt-bot"

/-- The `to_iso_code(language)` function of src/main.py: looks the language up
in `languages`; on a `KeyError` it logs an error line and raises a `KeyError`
carrying `languageErrMsg`.  Returns (log contents after the call, code or
raised-error message). -/
def to_iso_code (time language : String) (logs : List String) :
    List String × Except String String :=
  match languages.lookup language with
  | some code => (logs, Except.ok code)
  | none =>
    ((log time ("Can\x27t find the language requested: " ++ language) "error" logs).1,
     Except.error (languageErrMsg language))

lemma to_iso_code_found (time language code : String) (logs : List String)
    (h : languages.lookup language = some code) :
    to_iso_code time language logs = (logs, Except.ok code) := by
  simp [to_iso_code, h]

lemma to_iso_code_missing (time language : String) (logs : List String)
    (h : languages.lookup language = none) :
    to_iso_code time language logs =
      (logs ++ [renderLogLine time
        ("[" ++ "E" ++ "]: " ++ ("Can\x27t find the language requested: " ++ language))],
       Except.error (languageErrMsg language)) := by
  simp [to_iso_code, h, log_error_eq]

/-- The allow-list of `is_valid_result` in src/main.py. -/
def result_types : List String := ["mixed", "recent", "popular"]

/-- The message of the `KeyError` raised by `is_valid_result`. -/
def resultTypeErrMsg (r : String) : String :=
  "Sorry, but the result type should be: \x27mixed\x27, \x27recent\x27 or \x27popular\x27, you requested \x27"
    ++ r ++ "\x27"

/-- The `is_valid_result(result_type)` function of src/main.py: strips the
input, returns it if it is one of the three allowed values, otherwise logs an
error line and raises a `KeyError`. -/
def is_valid_result (time result_type : String) (logs : List String) :
    List String × Except String String :=
  if result_types.contains (pyStrip result_type) then
    (logs, Except.ok (pyStrip result_type))
  else
    ((log time "Invalid result type from the configuration" "error" logs).1,
     Except.error (resultTypeErrMsg (pyStrip result_type)))

lemma is_valid_result_ok (time s : String) (logs : List String)
    (h : result_types.contains (pyStrip s) = true) :
    is_valid_result time s logs = (logs, Except.ok (pyStrip s)) := by
  unfold is_valid_result
  rw [h]
  simp

lemma is_valid_result_bad (time s : String) (logs : List String)
    (h : result_types.contains (pyStrip s) = false) :
    is_valid_result time s logs =
      (logs ++ [renderLogLine time
        ("[" ++ "E" ++ "]: " ++ "Invalid result type from the configuration")],
       Except.error (resultTypeErrMsg (pyStrip s))) := by
  unfold is_valid_result
  rw [h]
  simp [log_error_eq]

/-- A raw item yielded by the paginated search iterator of the third-party
client (a tweet object with the three attributes the script reads). -/
structure Tweet where
  id : Int
  created_at : String
  text : String
deriving DecidableEq

/-- The dictionary `{"id": ..., "created-at": ..., "text": ...}` that the
fetch loop builds from a raw item. -/
structure TweetRecord where
  id : Int
  created_at : String
  text : String
deriving DecidableEq

/-- `current_tweet = {"id": t.id, "created-at": t.created_at, "text": t.text}`. -/
def tweetRecord (t : Tweet) : TweetRecord :=
  ⟨t.id, t.created_at, t.text⟩

/-- One pull on the paginated iterator: either a yielded raw item or a raised
exception (carrying an arbitrary description of the exception). -/
inductive Pull where
  | item : Tweet → Pull
  | exn : String → Pull
deriving DecidableEq

/-- The `for t in scrapper` loop body of src/main.py, with `tweets` as the
accumulator: each yielded item is materialised and appended; a raised
exception aborts the loop and is swallowed by the bare `except: pass`,
leaving the tweets collected so far. -/
def fetchLoop : List Pull → List TweetRecord → List TweetRecord
  | [], tweets => tweets
  | Pull.exn _ :: _, tweets => tweets
  | Pull.item t :: rest, tweets => fetchLoop rest (tweets ++ [tweetRecord t])

/-- The whole `tweets = list(); try: ... except: pass` block of src/main.py.
It is total (never raises) and does not touch the log file: the bare
`except: pass` swallows every exception silently. -/
def scrape_tweets (pulls : List Pull) : List TweetRecord :=
  fetchLoop pulls []

lemma fetchLoop_yields_then_raises (items : List Tweet) (e : String)
    (rest : List Pull) (acc : List TweetRecord) :
    fetchLoop (items.map Pull.item ++ Pull.exn e :: rest) acc =
      acc ++ items.map tweetRecord := by
  induction items generalizing acc with
  | nil => simp [fetchLoop]
  | cons t ts ih =>
    simp only [List.map_cons, List.cons_append, fetchLoop, List.append_eq, ih]
    simp

/-- The `credentials` object of the configuration document; each key may be
absent. -/
structure CredsDoc where
  consumer_key : Option String
  consumer_secret : Option String
  access_token : Option String
  access_token_secret : Option String
deriving DecidableEq

/-- The loaded configuration document (`configuration` in src/main.py); each
key may be absent. -/
structure ConfigDoc where
  credentials : Option CredsDoc
  hashtag : Option String
  max_tweets : Option Nat
  language : Option String
  result_type : Option String
deriving DecidableEq

/-- The authenticated client handle built by the adapter block
(`tweepy.OAuthHandler`, `auth.set_access_token`, `tweepy.api`), recording the
four credential strings it was given. -/
structure ClientHandle where
  consumer_key : String
  consumer_secret : String
  access_token : String
  access_token_secret : String
deriving DecidableEq

/-- `ACCESS_TOKEN` in src/main.py: initialised to the empty string and never
reassigned. -/
def ACCESS_TOKEN : String := ""

/-- `ACCESS_TOKEN_SECRET` in src/main.py: initialised to the empty string and
never reassigned. -/
def ACCESS_TOKEN_SECRET : String := ""

/-- Externally visible calls made by the module-level flow: construction of
the API client from the four credential strings, and the paginated search
call with its query string and item bound. -/
inductive Event where
  | clientConstruct : String → String → String → String → Event
  | searchCall : ClientHandle → String → Nat → Event
deriving DecidableEq

/-- Message of the `KeyError` raised by the credential-extraction block. -/
def credentialsErrMsg : String := "Internal key error when using the credentials..."

/-- Message of the `KeyError` raised by the search-parameter parsing block. -/
def parseErrMsg : String := "Can\x27t parse the configuration for querying the tweets..."

/-- The credential-extraction block of src/main.py: reads
`configuration["credentials"]`, then `"consumer-key"` and `"consumer-secret"`
from it; any missing key raises a `KeyError` whose message is logged first. -/
def extractCredentials (time : String) (doc : ConfigDoc) (logs : List String) :
    List String × Except String (String × String) :=
  match doc.credentials with
  | none =>
    ((log time credentialsErrMsg "error" logs).1, Except.error credentialsErrMsg)
  | some c =>
    match c.consumer_key with
    | none =>
      ((log time credentialsErrMsg "error" logs).1, Except.error credentialsErrMsg)
    | some ck =>
      match c.consumer_secret with
      | none =>
        ((log time credentialsErrMsg "error" logs).1, Except.error credentialsErrMsg)
      | some cs => (logs, Except.ok (ck, cs))

/-- The client-construction block of src/main.py: builds the handle from the
consumer pair and the (never reassigned) access-token pair. -/
def buildClient (ck cs tok tokSecret : String) : ClientHandle :=
  ⟨ck, cs, tok, tokSecret⟩

/-- Shared failure path of the search-parameter parsing block: the `except
KeyError` handler logs `parseErrMsg` and raises a `KeyError` carrying it. -/
def parseFail (time : String) (logs : List String) :
    List String × Except String (String × Nat × String × String) :=
  ((log time parseErrMsg "error" logs).1, Except.error parseErrMsg)

/-- The search-parameter parsing block of src/main.py: reads `hashtag`,
`max-tweets`, `language` (lower-cased then resolved by `to_iso_code`) and
`result-type` (lower-cased then checked by `is_valid_result`).  A missing key
or a `KeyError` raised by either helper is caught by the `except KeyError`
handler, which logs and raises `parseErrMsg`. -/
def parseSearchConfig (time : String) (doc : ConfigDoc) (logs : List String) :
    List String × Except String (String × Nat × String × String) :=
  match doc.hashtag, doc.max_tweets, doc.language with
  | some hashtag, some maxTweets, some lang =>
    (match to_iso_code time (pyLower lang) logs with
     | (logs1, Except.ok code) =>
       (match doc.result_type with
        | some rt =>
          (match is_valid_result time (pyLower rt) logs1 with
           | (logs2, Except.ok r) => (logs2, Except.ok (hashtag, maxTweets, code, r))
           | (logs2, Except.error _) => parseFail time logs2)
        | none => parseFail time logs1)
     | (logs1, Except.error _) => parseFail time logs1)
  | _, _, _ => parseFail time logs

/-- Result of the module-level flow: final log contents, trace of external
calls, and either the materialised tweet list or the raised error. -/
structure MainOutcome where
  logs : List String
  events : List Event
  result : Except String (List TweetRecord)

/-- The module-level flow of src/main.py after the configuration document has
been loaded: credential extraction, client construction, search-parameter
parsing, then the scraping loop.  A `KeyError` raised by the first or third
block propagates (the script aborts there); the scraping loop swallows every
exception. -/
def runMain (time : String) (doc : ConfigDoc) (pulls : List Pull) : MainOutcome :=
  match extractCredentials time doc [] with
  | (logs1, Except.error e) => ⟨logs1, [], Except.error e⟩
  | (logs1, Except.ok (ck, cs)) =>
    let client := buildClient ck cs ACCESS_TOKEN ACCESS_TOKEN_SECRET
    let events1 := [Event.clientConstruct ck cs ACCESS_TOKEN ACCESS_TOKEN_SECRET]
    match parseSearchConfig time doc logs1 with
    | (logs2, Except.error e) => ⟨logs2, events1, Except.error e⟩
    | (logs2, Except.ok (hashtag, maxTweets, _lang, _rt)) =>
      ⟨logs2, events1 ++ [Event.searchCall client hashtag maxTweets],
       Except.ok (scrape_tweets pulls)⟩

/-- The loaded document has a language the `languages` table resolves (after
the lower-casing the module applies before calling `to_iso_code`). -/
def langResolvable (doc : ConfigDoc) : Prop :=
  ∃ lang code, doc.language = some lang ∧ languages.lookup (pyLower lang) = some code

/-- The loaded document has a result type accepted by `is_valid_result`
(after the lower-casing the module applies before calling it). -/
def resultTypeValid (doc : ConfigDoc) : Prop :=
  ∃ rt, doc.result_type = some rt ∧
    result_types.contains (pyStrip (pyLower rt)) = true

lemma renderE (time msg : String) :
    renderLogLine time ("[" ++ "E" ++ "]: " ++ msg) =
      "\n" ++ time ++ " | [E]: " ++ msg :=
  render_line_eq time msg ("[" ++ "E" ++ "]: ") " | [E]: " (by decide)

lemma renderI (time msg : String) :
    renderLogLine time ("[" ++ "I" ++ "]: " ++ msg) =
      "\n" ++ time ++ " | [I]: " ++ msg :=
  render_line_eq time msg ("[" ++ "I" ++ "]: ") " | [I]: " (by decide)

lemma parseFail_eq (time : String) (logs : List String) :
    parseFail time logs =
      (logs ++ [renderLogLine time ("[" ++ "E" ++ "]: " ++ parseErrMsg)],
       Except.error parseErrMsg) := by
  simp [parseFail, log_error_eq]

lemma extractCredentials_ok (time : String) (doc : ConfigDoc) (logs : List String)
    (c : CredsDoc) (ck cs : String)
    (h1 : doc.credentials = some c) (h2 : c.consumer_key = some ck)
    (h3 : c.consumer_secret = some cs) :
    extractCredentials time doc logs = (logs, Except.ok (ck, cs)) := by
  simp [extractCredentials, h1, h2, h3]

lemma extractCredentials_missing (time : String) (doc : ConfigDoc) (logs : List String)
    (h : doc.credentials = none ∨
      ∃ c, doc.credentials = some c ∧
        (c.consumer_key = none ∨ c.consumer_secret = none)) :
    extractCredentials time doc logs =
      (logs ++ [renderLogLine time ("[" ++ "E" ++ "]: " ++ credentialsErrMsg)],
       Except.error credentialsErrMsg) := by
  rcases h with h | ⟨c, hc, h⟩
  · simp [extractCredentials, h, log_error_eq]
  · rcases h with h | h
    · simp [extractCredentials, hc, h, log_error_eq]
    · cases hk : c.consumer_key <;>
        simp [extractCredentials, hc, hk, h, log_error_eq]

lemma parseSearchConfig_fails (time : String) (doc : ConfigDoc) (logs : List String)
    (h : ¬ langResolvable doc ∨ ¬ resultTypeValid doc) :
    ∃ logs2, parseSearchConfig time doc logs = (logs2, Except.error parseErrMsg) := by
  unfold parseSearchConfig
  cases hh : doc.hashtag with
  | none => exact ⟨_, by simp [parseFail_eq]; try rfl⟩
  | some hashtag =>
  cases hm : doc.max_tweets with
  | none => exact ⟨_, by simp [parseFail_eq]; try rfl⟩
  | some maxTweets =>
  cases hl : doc.language with
  | none => exact ⟨_, by simp [parseFail_eq]; try rfl⟩
  | some lang =>
  cases hcode : languages.lookup (pyLower lang) with
  | none =>
    exact ⟨_, by
      simp [to_iso_code_missing time (pyLower lang) logs hcode, parseFail_eq]
      try rfl⟩
  | some code =>
  have hlr : langResolvable doc := ⟨lang, code, hl, hcode⟩
  rcases h with h | h
  · exact absurd hlr h
  cases hr : doc.result_type with
  | none =>
    exact ⟨_, by
      simp [to_iso_code_found time (pyLower lang) code logs hcode, parseFail_eq]
      try rfl⟩
  | some rt =>
  cases hv : result_types.contains (pyStrip (pyLower rt)) with
  | true => exact absurd ⟨rt, hr, hv⟩ h
  | false =>
    exact ⟨_, by
      simp [to_iso_code_found time (pyLower lang) code logs hcode, hr,
        is_valid_result_bad time (pyLower rt) logs hv, parseFail_eq]
      try rfl⟩

lemma parseSearchConfig_ok_implies (time : String) (doc : ConfigDoc)
    (logs logs2 : List String) (v : String × Nat × String × String)
    (h : parseSearchConfig time doc logs = (logs2, Except.ok v)) :
    langResolvable doc ∧ resultTypeValid doc := by
  by_contra hcon
  rw [not_and_or] at hcon
  obtain ⟨logs3, hfail⟩ := parseSearchConfig_fails time doc logs hcon
  rw [h] at hfail
  exact absurd (congrArg Prod.snd hfail) (by simp)

set_option maxRecDepth 8192 in
lemma LANGS_infix_languageErrMsg (lang : String) :
    LANGS.data <:+: (languageErrMsg lang).data := by
  unfold languageErrMsg
  refine ⟨("Sorry, but we can\x27t get the language \x27" ++ lang ++ "\x27..."
      ++ "\nWe currently have support for the following languages:").data,
    ("If you think that your language should be supported, you can create a pr on GitHub: "
      ++ "\n github.com/pblcc/twitter-rt-bot").data, ?_⟩
  simp [String.data_append, List.append_assoc]

set_option maxRecDepth 8192 in
lemma supported_name_infix_errMsg (lang name : String)
    (hname : name ∈ languages.map Prod.fst) :
    name.data <:+: (languageErrMsg lang).data := by
  have h1 : name.data <:+: LANGS.data := by
    simp only [languages, List.map_cons, List.map_nil, List.mem_cons,
      List.not_mem_nil, or_false] at hname
    rcases hname with rfl | rfl | rfl | rfl | rfl | rfl | rfl | rfl | rfl | rfl <;> decide
  exact h1.trans (LANGS_infix_languageErrMsg lang)

/-- C1: for every client whose paginated iteration yields N post items and
then raises any exception on the (N+1)th pull, the search-fetch phase
returns exactly the first N materialised records (each built from the raw
item via `tweetRecord`, in platform-returned order).  The exception is fully
suppressed: `scrape_tweets` is a total function into a plain list (nothing
propagates) and it does not touch the log store (the bare `except: pass`
block of the source contains no logging call). -/
theorem c1_search_fetcher_suppresses_exception (items : List Tweet) (e : String)
    (rest : List Pull) :
    scrape_tweets (items.map Pull.item ++ Pull.exn e :: rest) =
      items.map tweetRecord := by
  unfold scrape_tweets
  rw [fetchLoop_yields_then_raises]
  simp

/-- C3: for every supported language name the resolver returns that
language's documented two-letter code (all ten pairs listed explicitly); for
every unsupported name it logs one error line and raises a `KeyError`-class
error whose message contains every supported language name. -/
theorem c3_language_resolver_spec (time lang : String) (logs : List String)
    (h : languages.lookup lang = none) :
    (to_iso_code time "arab" logs = (logs, Except.ok "ar") ∧
     to_iso_code time "greek" logs = (logs, Except.ok "el") ∧
     to_iso_code time "german" logs = (logs, Except.ok "de") ∧
     to_iso_code time "english" logs = (logs, Except.ok "en") ∧
     to_iso_code time "spanish" logs = (logs, Except.ok "es") ∧
     to_iso_code time "french" logs = (logs, Except.ok "fr") ∧
     to_iso_code time "italian" logs = (logs, Except.ok "it") ∧
     to_iso_code time "korean" logs = (logs, Except.ok "ko") ∧
     to_iso_code time "russian" logs = (logs, Except.ok "ru") ∧
     to_iso_code time "chines" logs = (logs, Except.ok "zn")) ∧
    to_iso_code time lang logs =
      (logs ++ ["\n" ++ time ++ " | [E]: " ++
        ("Can\x27t find the language requested: " ++ lang)],
       Except.error (languageErrMsg lang)) ∧
    ∀ name ∈ languages.map Prod.fst, name.data <:+: (languageErrMsg lang).data := by
  refine ⟨⟨?_, ?_, ?_, ?_, ?_, ?_, ?_, ?_, ?_, ?_⟩, ?_, ?_⟩
  · exact to_iso_code_found time "arab" "ar" logs (by decide)
  · exact to_iso_code_found time "greek" "el" logs (by decide)
  · exact to_iso_code_found time "german" "de" logs (by decide)
  · exact to_iso_code_found time "english" "en" logs (by decide)
  · exact to_iso_code_found time "spanish" "es" logs (by decide)
  · exact to_iso_code_found time "french" "fr" logs (by decide)
  · exact to_iso_code_found time "italian" "it" logs (by decide)
  · exact to_iso_code_found time "korean" "ko" logs (by decide)
  · exact to_iso_code_found time "russian" "ru" logs (by decide)
  · exact to_iso_code_found time "chines" "zn" logs (by decide)
  · rw [to_iso_code_missing time lang logs h, renderE]
  · exact fun name hname => supported_name_infix_errMsg lang name hname

/-- C4: for every string whose stripped form is one of `mixed`, `recent`,
`popular` (case-sensitive after the strip), `is_valid_result` returns the
stripped value unchanged; for every other string it appends one error line
to the log and raises a `KeyError`-class error. -/
theorem c4_result_type_validator_spec (time s : String) (logs : List String) :
    (result_types.contains (pyStrip s) = true →
      is_valid_result time s logs = (logs, Except.ok (pyStrip s))) ∧
    (result_types.contains (pyStrip s) = false →
      is_valid_result time s logs =
        (logs ++ ["\n" ++ time ++ " | [E]: " ++
          "Invalid result type from the configuration"],
         Except.error (resultTypeErrMsg (pyStrip s)))) := by
  constructor
  · exact is_valid_result_ok time s logs
  · intro h
    rw [is_valid_result_bad time s logs h, renderE]

/-- C5: for every message, `log` appends exactly one chunk to the log store:
`"\n{time} | [I]: {msg}"` for kind `info`, `"\n{time} | [E]: {msg}"` for
kind `error`, and `"\n{time} | {MSG UPPERCASED}"` (no bracket prefix) for
kind `title`; in each case no error is raised. -/
theorem c5_log_line_formats (time msg : String) (logs : List String) :
    log time msg "info" logs =
      (logs ++ ["\n" ++ time ++ " | [I]: " ++ msg], none) ∧
    log time msg "error" logs =
      (logs ++ ["\n" ++ time ++ " | [E]: " ++ msg], none) ∧
    log time msg "title" logs =
      (logs ++ ["\n" ++ time ++ " | " ++ pyUpper msg], none) := by
  refine ⟨?_, ?_, ?_⟩
  · rw [log_info_eq, renderI]
  · rw [log_error_eq, renderE]
  · rw [log_title_case time msg "title" logs (by decide)]
    rfl

/-- C6: for every kind whose normalised form (the `.lower().strip()` the
logger applies before dispatch) is outside the set of known kinds
info/error/title, `log` raises a `KeyError`-class error, and before raising
it recursively writes exactly one additional error line describing the
internal key failure. -/
theorem c6_log_unknown_kind_raises (time msg k : String) (logs : List String)
    (h : pyStrip (pyLower k) ∉ (["info", "error", "title"] : List String)) :
    log time msg k logs =
      (logs ++ ["\n" ++ time ++ " | [E]: " ++
        "Internal key error when trying to log an error inside the script"],
       some "Internal key error when trying to log an error inside the script") := by
  rw [log_unknown_case time msg k logs (kind_outside_lookup_none k h)
    (kind_outside_not_title k h), renderE]

/-- C6 witness: at kind `"bogus"`, `log` raises the internal key error and
appends only the internal error line. -/
theorem c6_log_unknown_kind_raises_witness :
    log "01/01/2021 at 10:00:00" "hello" "bogus" [] =
      (["\n" ++ "01/01/2021 at 10:00:00" ++ " | [E]: " ++
        "Internal key error when trying to log an error inside the script"],
       some "Internal key error when trying to log an error inside the script") :=
  c6_log_unknown_kind_raises "01/01/2021 at 10:00:00" "hello" "bogus" [] (by decide)

/-- C9: the logger normalises its kind argument by lower-casing and trimming
before dispatch, so the kinds `"Info"`, `" ERROR "` and `" Title"` behave
identically to `"info"`, `"error"` and `"title"` respectively, for every
message and log state. -/
theorem c9_log_kind_normalisation (time msg : String) (logs : List String) :
    log time msg "Info" logs = log time msg "info" logs ∧
    log time msg " ERROR " logs = log time msg "error" logs ∧
    log time msg " Title" logs = log time msg "title" logs := by
  refine ⟨?_, ?_, ?_⟩
  · rw [log_known_case time msg "Info" "I" logs (by decide) (by decide), log_info_eq]
  · rw [log_known_case time msg " ERROR " "E" logs (by decide) (by decide), log_error_eq]
  · rw [log_title_case time msg " Title" logs (by decide),
      log_title_case time msg "title" logs (by decide)]

/-- C10: when `log` raises on an unknown kind, the log store receives only
the recursively-written internal-failure line: the store after the failed
call does not depend on the message of that call, and equals the previous
store plus the single internal error line. -/
theorem c10_failed_log_call_writes_only_internal_line (time msg k : String)
    (logs : List String)
    (h : pyStrip (pyLower k) ∉ (["info", "error", "title"] : List String)) :
    (log time msg k logs).1 =
      logs ++ ["\n" ++ time ++ " | [E]: " ++
        "Internal key error when trying to log an error inside the script"] ∧
    ∀ msg2, (log time msg k logs).1 = (log time msg2 k logs).1 := by
  have hk := kind_outside_lookup_none k h
  have ht := kind_outside_not_title k h
  constructor
  · rw [log_unknown_case time msg k logs hk ht, renderE]
  · intro msg2
    rw [log_unknown_case time msg k logs hk ht, log_unknown_case time msg2 k logs hk ht]

/-- C10 witness: at kind `"bogus"` with message `"original message"`, the
resulting log store is the single internal error line and coincides with the
store produced for any other message. -/
theorem c10_failed_log_call_writes_only_internal_line_witness :
    (log "T" "original message" "bogus" []).1 =
      [] ++ ["\n" ++ "T" ++ " | [E]: " ++
        "Internal key error when trying to log an error inside the script"] ∧
    ∀ msg2, (log "T" "original message" "bogus" []).1 = (log "T" msg2 "bogus" []).1 :=
  c10_failed_log_call_writes_only_internal_line "T" "original message" "bogus" [] (by decide)

/-- C2: if the loaded configuration has no language resolvable through the
language table or no result type in the allow-list, the module flow ends in
a raised error and the search call is never reached; conversely, whenever
the search call appears in the event trace, the language resolved and the
result type validated. -/
theorem c2_invalid_config_stops_before_search (time : String) (doc : ConfigDoc)
    (pulls : List Pull) :
    ((¬ langResolvable doc ∨ ¬ resultTypeValid doc) →
      (∃ e, (runMain time doc pulls).result = Except.error e) ∧
      ∀ c q m, Event.searchCall c q m ∉ (runMain time doc pulls).events) ∧
    ((∃ c q m, Event.searchCall c q m ∈ (runMain time doc pulls).events) →
      langResolvable doc ∧ resultTypeValid doc) := by
  rcases hec : extractCredentials time doc [] with ⟨logs1, e | ⟨ck, cs⟩⟩
  · constructor
    · intro _
      refine ⟨⟨e, ?_⟩, ?_⟩
      · simp [runMain, hec]
      · intro c q m
        simp [runMain, hec]
    · rintro ⟨c, q, m, hm⟩
      simp [runMain, hec] at hm
  · rcases hpc : parseSearchConfig time doc logs1 with ⟨logs2, pe | ⟨q0, m0, lg0, rt0⟩⟩
    · constructor
      · intro _
        refine ⟨⟨pe, ?_⟩, ?_⟩
        · simp [runMain, hec, hpc]
        · intro c q m
          simp [runMain, hec, hpc]
      · rintro ⟨c, q, m, hm⟩
        simp [runMain, hec, hpc] at hm
    · obtain ⟨hlr, hrv⟩ :=
        parseSearchConfig_ok_implies time doc logs1 logs2 (q0, m0, lg0, rt0) hpc
      constructor
      · rintro (h | h)
        · exact absurd hlr h
        · exact absurd hrv h
      · intro _
        exact ⟨hlr, hrv⟩

/-- Concrete configuration for the C2 witness: well-formed credentials and
keys, but a language (`"Klingon"`) that the language table cannot resolve. -/
def docBadLanguage : ConfigDoc :=
  ⟨some ⟨some "k", some "s", none, none⟩, some "#prog", some 5,
   some "Klingon", some "recent"⟩

/-- C2 witness: with the unresolvable language `"Klingon"`, the flow ends in
a raised error and no search call is ever made. -/
theorem c2_invalid_config_stops_before_search_witness :
    (∃ e, (runMain "T" docBadLanguage []).result = Except.error e) ∧
    ∀ c q m, Event.searchCall c q m ∉ (runMain "T" docBadLanguage []).events :=
  (c2_invalid_config_stops_before_search "T" docBadLanguage []).1
    (Or.inl (by
      rintro ⟨lang, code, hl, hc⟩
      have hlang : lang = "Klingon" := by
        have : docBadLanguage.language = some "Klingon" := rfl
        rw [this] at hl
        cases hl
        rfl
      subst hlang
      rw [show pyLower "Klingon" = "klingon" from by decide] at hc
      rw [show languages.lookup "klingon" = none from by decide] at hc
      cases hc))

/-- C7: a configuration document missing `credentials.consumer-secret` (or
`consumer-key`, or the whole `credentials` record) makes the
credential-extraction block log and raise its `KeyError`; the flow ends with
that error, an empty event trace (no client construction, no search — no
network call of any kind), and exactly the one error line in the log. -/
theorem c7_missing_credentials_fail_before_network (time : String)
    (doc : ConfigDoc) (pulls : List Pull)
    (h : doc.credentials = none ∨
      ∃ c, doc.credentials = some c ∧
        (c.consumer_key = none ∨ c.consumer_secret = none)) :
    (runMain time doc pulls).result = Except.error credentialsErrMsg ∧
    (runMain time doc pulls).events = [] ∧
    (runMain time doc pulls).logs =
      ["\n" ++ time ++ " | [E]: " ++ credentialsErrMsg] := by
  have hec := extractCredentials_missing time doc [] h
  rw [renderE] at hec
  refine ⟨?_, ?_, ?_⟩ <;> simp [runMain, hec]

/-- Concrete configuration for the C7 witness: a credentials record with a
consumer key but no consumer secret. -/
def docNoSecret : ConfigDoc :=
  ⟨some ⟨some "key", none, none, none⟩, some "#x", some 1,
   some "english", some "mixed"⟩

/-- C7 witness: with `consumer-secret` missing, the flow raises the
credentials `KeyError`, makes no external call, and writes the one error
line. -/
theorem c7_missing_credentials_fail_before_network_witness :
    (runMain "T" docNoSecret []).result = Except.error credentialsErrMsg ∧
    (runMain "T" docNoSecret []).events = [] ∧
    (runMain "T" docNoSecret []).logs =
      ["\n" ++ "T" ++ " | [E]: " ++ credentialsErrMsg] :=
  c7_missing_credentials_fail_before_network "T" docNoSecret []
    (Or.inr ⟨⟨some "key", none, none, none⟩, rfl, Or.inr rfl⟩)

/-- C8: whatever the configuration document contains (even access-token
values), the access-token and access-token-secret strings passed to the API
client constructor are the empty string. -/
theorem c8_access_tokens_always_empty (time : String) (doc : ConfigDoc)
    (pulls : List Pull) (ck cs tok tokSecret : String)
    (h : Event.clientConstruct ck cs tok tokSecret ∈ (runMain time doc pulls).events) :
    tok = "" ∧ tokSecret = "" := by
  rcases hec : extractCredentials time doc [] with ⟨logs1, e | ⟨ck', cs'⟩⟩
  · simp [runMain, hec] at h
  · rcases hpc : parseSearchConfig time doc logs1 with ⟨logs2, pe | ⟨q0, m0, lg0, rt0⟩⟩
    · simp [runMain, hec, hpc, ACCESS_TOKEN, ACCESS_TOKEN_SECRET] at h
      exact ⟨h.2.2.1, h.2.2.2⟩
    · simp [runMain, hec, hpc, ACCESS_TOKEN, ACCESS_TOKEN_SECRET, buildClient] at h
      exact ⟨h.2.2.1, h.2.2.2⟩

/-- Concrete configuration for the C8 witness: the document defines
access-token values, which the script nevertheless never reads. -/
def docWithTokens : ConfigDoc :=
  ⟨some ⟨some "ckey", some "csecret", some "tok", some "toksec"⟩, some "#h",
   some 2, some "spanish", some "recent"⟩

/-- C8 witness: the client-construction event of the run over a document
that defines access tokens still carries empty access-token strings. -/
theorem c8_access_tokens_always_empty_witness :
    Event.clientConstruct "ckey" "csecret" "" "" ∈
      (runMain "T" docWithTokens []).events ∧
    (("" : String) = "" ∧ ("" : String) = "") :=
  ⟨by decide, c8_access_tokens_always_empty "T" docWithTokens [] "ckey" "csecret" "" ""
    (by decide)⟩

/-- C3 witness: for the unsupported language `"klingon"`, `to_iso_code` logs
one error line and raises the `KeyError` whose message contains every
supported language name (instantiating the resolver theorem; the supported
case `spanish → es` is extracted from the same instantiation). -/
theorem c3_language_resolver_spec_witness :
    to_iso_code "T" "spanish" [] = ([], Except.ok "es") ∧
    to_iso_code "T" "klingon" [] =
      ([] ++ ["\n" ++ "T" ++ " | [E]: " ++
        ("Can\x27t find the language requested: " ++ "klingon")],
       Except.error (languageErrMsg "klingon")) ∧
    ∀ name ∈ languages.map Prod.fst,
      name.data <:+: (languageErrMsg "klingon").data :=
  ⟨(c3_language_resolver_spec "T" "klingon" [] (by decide)).1.2.2.2.2.1,
   (c3_language_resolver_spec "T" "klingon" [] (by decide)).2.1,
   (c3_language_resolver_spec "T" "klingon" [] (by decide)).2.2⟩

/-- C4 witness: `" recent "` strips to the accepted value `"recent"` and is
returned unchanged; `"bogus"` is rejected with one error log line and a
raised `KeyError`. -/
theorem c4_result_type_validator_spec_witness :
    is_valid_result "T" " recent " [] = ([], Except.ok "recent") ∧
    is_valid_result "T" "bogus" [] =
      ([] ++ ["\n" ++ "T" ++ " | [E]: " ++
        "Invalid result type from the configuration"],
       Except.error (resultTypeErrMsg "bogus")) :=
  ⟨(c4_result_type_validator_spec "T" " recent " []).1 (by decide),
   (c4_result_type_validator_spec "T" "bogus" []).2 (by decide)⟩
